import Mathlib

/-!
Shallow embedding of the multi-signature wallet front-end projection logic
from `src/Multisig-wallet/multi-sig-wallet-master`:

* the `reducer` state machine and its action types from
  `src/contexts/MultiSigWallet.tsx`;
* the `Updater` component's dispatch of ledger events
  (`Deposit`, `SubmitTransaction`, `ConfirmTransaction`,
  `RevokeConfirmation`, `ExecuteTransaction`) onto reducer actions;
* the `unlockAccount` helper from `src/api/web3.ts`.

JavaScript numbers that only ever hold integral values are modelled as `Int`
(so that `numConfirmations -= 1` can go negative, as in the source).
`parseInt` can produce `NaN`; we model a possibly-`NaN` number as
`Option Int` with `none` standing for `NaN`, and JS strict equality `===`
on such numbers as `numEq` (`NaN === x` is `false` for every `x`).
`Web3.utils.toBN` throws on a malformed numeric string; a thrown exception
escaping the reducer is modelled by the reducer returning `none`.
-/

namespace MultiSigWalletModel

/-- Model of JavaScript `parseInt(s)` (radix 10) as used on the decimal
`txIndex` strings of the wallet events: skip leading whitespace, read an
optional sign, then the longest leading run of decimal digits; if that run
is empty the result is `NaN`, modelled as `none`.  (The `0x` hex-prefix
form of `parseInt` never occurs for these decimal event fields and is not
modelled.) -/
def parseIntJS (s : String) : Option Int :=
  let cs := s.data.dropWhile (fun c => c == ' ' || c == '\t' || c == '\n' || c == '\r')
  let signAndRest : Bool × List Char :=
    match cs with
    | '-' :: rest => (true, rest)
    | '+' :: rest => (false, rest)
    | _ => (false, cs)
  let ds := signAndRest.2.takeWhile Char.isDigit
  if ds.isEmpty then none
  else
    let n : Nat := ds.foldl (fun acc c => acc * 10 + (c.toNat - 48)) 0
    some (if signAndRest.1 then -(n : Int) else (n : Int))

/-- JavaScript strict equality `===` between two numbers each of which may be
`NaN` (`none`): `NaN === x` and `x === NaN` are `false`; otherwise compare
the integers. -/
def numEq : Option Int → Option Int → Bool
  | some a, some b => a == b
  | _, _ => false

/-- Model of `Web3.utils.toBN` on the decimal strings the reducer receives:
an optional `-` sign followed by a non-empty run of decimal digits yields
the denoted integer; any other string makes `toBN` throw, modelled as
`none`.  (The hex `0x` form accepted by the library never occurs for the
wallet's decimal event payloads and is not modelled.) -/
def toBN (s : String) : Option Int :=
  let signAndRest : Bool × List Char :=
    match s.data with
    | '-' :: rest => (true, rest)
    | cs => (false, cs)
  let ds := signAndRest.2
  if ds.isEmpty || !(ds.all Char.isDigit) then none
  else
    let n : Nat := ds.foldl (fun acc c => acc * 10 + (c.toNat - 48)) 0
    some (if signAndRest.1 then -(n : Int) else (n : Int))

/-- The `Transaction` interface of `MultiSigWallet.tsx`: `txIndex` is the
number produced by `parseInt` (possibly `NaN`, hence `Option Int`),
`value` is the `BN` built by `toBN`. -/
structure Transaction where
  txIndex : Option Int
  toAddr : String   -- the source field is named `to`, a reserved word in Lean
  value : Int
  data : String
  executed : Bool
  numConfirmations : Int
  isConfirmedByCurrentAccount : Bool
  deriving DecidableEq

/-- The `State` interface of `MultiSigWallet.tsx`. -/
structure State where
  address : String
  balance : String
  owners : List String
  numConfirmationsRequired : Int
  transactionCount : Int
  transactions : List Transaction
  deriving DecidableEq

/-- `INITIAL_STATE` of `MultiSigWallet.tsx`. -/
def INITIAL_STATE : State :=
  { address := ""
    balance := "0"
    owners := []
    numConfirmationsRequired := 0
    transactionCount := 0
    transactions := [] }

/-- Payload of the `SET` action. -/
structure SetData where
  address : String
  balance : String
  owners : List String
  numConfirmationsRequired : Int
  transactionCount : Int
  transactions : List Transaction

/-- Payload of the `UPDATE_BALANCE` action. -/
structure UpdateBalanceData where
  balance : String

/-- Payload of the `ADD_TX` action (all fields are strings, as in the
event `returnValues`). -/
structure AddTxData where
  txIndex : String
  toAddr : String   -- the source field is named `to`, a reserved word in Lean
  value : String
  data : String

/-- Payload of the `UPDATE_TX` action.  The optional `executed` and
`confirmed` fields model the TypeScript optional booleans: `none` is the
absent (`undefined`) field. -/
structure UpdateTxData where
  account : String
  txIndex : String
  owner : String
  executed : Option Bool
  confirmed : Option Bool

/-- The `Action` union type of `MultiSigWallet.tsx`. -/
inductive Action where
  | set (d : SetData)
  | updateBalance (d : UpdateBalanceData)
  | addTx (d : AddTxData)
  | updateTx (d : UpdateTxData)

/-- The body of the `state.transactions.map` callback in the `UPDATE_TX`
case of the reducer, for a transaction whose `txIndex` strictly equals the
parsed index: copy the record, set `executed` when `data.executed` is
truthy, and when `data.confirmed` is present either increment
`numConfirmations` and assign `isConfirmedByCurrentAccount :=
(owner === account)`, or decrement `numConfirmations` and clear the flag
only when `owner === account`. -/
def updateMatchedTx (d : UpdateTxData) (tx : Transaction) : Transaction :=
  let tx1 := if d.executed = some true then { tx with executed := true } else tx
  if d.confirmed.isSome then
    if d.confirmed = some true then
      { tx1 with
        numConfirmations := tx1.numConfirmations + 1
        isConfirmedByCurrentAccount := d.owner == d.account }
    else
      let tx2 := { tx1 with numConfirmations := tx1.numConfirmations - 1 }
      if d.owner == d.account then
        { tx2 with isConfirmedByCurrentAccount := false }
      else tx2
  else tx1

/-- The `reducer` of `MultiSigWallet.tsx`.  A `none` result models a thrown
JavaScript exception (only `Web3.utils.toBN` in the `ADD_TX` case can
throw); every other case returns the next state. -/
def reducer (state : State) (action : Action) : Option State :=
  match action with
  | .set d =>
      some { state with
        address := d.address
        balance := d.balance
        owners := d.owners
        numConfirmationsRequired := d.numConfirmationsRequired
        transactionCount := d.transactionCount
        transactions := d.transactions }
  | .updateBalance d =>
      some { state with balance := d.balance }
  | .addTx d =>
      match toBN d.value with
      | none => none
      | some v =>
          some { state with
            transactionCount := state.transactionCount + 1
            transactions :=
              { txIndex := parseIntJS d.txIndex
                toAddr := d.toAddr
                value := v
                data := d.data
                executed := false
                numConfirmations := 0
                isConfirmedByCurrentAccount := false } :: state.transactions }
  | .updateTx d =>
      let txIndex := parseIntJS d.txIndex
      some { state with
        transactions :=
          state.transactions.map (fun tx =>
            if numEq tx.txIndex txIndex then updateMatchedTx d tx else tx) }

/-- The ledger events the `Updater` component of `MultiSigWallet.tsx`
dispatches on, with the `returnValues` fields the dispatched actions read.
`unknown` stands for any other event name, which the `Updater` only logs. -/
inductive WalletEvent where
  | deposit (balance : String)
  | submitTransaction (txIndex toAddr value data : String)
  | confirmTransaction (owner txIndex : String)
  | revokeConfirmation (owner txIndex : String)
  | executeTransaction (owner txIndex : String)
  | unknown

/-- The `switch (log.event)` dispatch of the `Updater`: each ledger event is
folded into the state through the reducer, with `account` the identity
viewing the projection (spread into the `UPDATE_TX` payloads). -/
def applyEvent (account : String) (state : State) (ev : WalletEvent) : Option State :=
  match ev with
  | .deposit balance =>
      reducer state (.updateBalance { balance := balance })
  | .submitTransaction txIndex toAddr value data =>
      reducer state (.addTx { txIndex := txIndex, toAddr := toAddr, value := value, data := data })
  | .confirmTransaction owner txIndex =>
      reducer state
        (.updateTx { account := account, txIndex := txIndex, owner := owner
                     executed := none, confirmed := some true })
  | .revokeConfirmation owner txIndex =>
      reducer state
        (.updateTx { account := account, txIndex := txIndex, owner := owner
                     executed := none, confirmed := some false })
  | .executeTransaction owner txIndex =>
      reducer state
        (.updateTx { account := account, txIndex := txIndex, owner := owner
                     executed := some true, confirmed := none })
  | .unknown => some state

/-- Fold an ordered sequence of ledger events into a projection state, one
at a time in arrival order, stopping at the first thrown exception. -/
def replay (account : String) (state : State) : List WalletEvent → Option State
  | [] => some state
  | ev :: evs =>
      match applyEvent account state ev with
      | none => none
      | some s => replay account s evs

/-- The injected provider of `src/api/web3.ts`, reduced to the data the
helpers read: the account list that `web3.eth.getAccounts()` resolves to.
The `ethereum.enable()` prompt and the RPC round-trips are modelled as
total reads of this environment. -/
structure EthereumProvider where
  accounts : List String

/-- `unlockAccount` of `src/api/web3.ts`: with no injected provider
(`window.ethereum` absent) it throws `"Web3 not found"`; otherwise it
returns `accounts[0] || ""` (the first account, or the empty string when
the list is empty — note that `"" || ""` is also `""`, so `List.headD`
with default `""` is an exact model). -/
def unlockAccount (ethereum : Option EthereumProvider) : Except String String :=
  match ethereum with
  | none => .error "Web3 not found"
  | some p => .ok (p.accounts.headD "")

/-- A projection state holding one pending transaction record at index 0
whose `isConfirmedByCurrentAccount` flag is already set. -/
def c1State : State :=
  { address := "0xwallet", balance := "0", owners := ["0xA", "0xB"],
    numConfirmationsRequired := 2, transactionCount := 1,
    transactions := [{ txIndex := some 0, toAddr := "0xD", value := 0, data := "0x00",
                       executed := false, numConfirmations := 1,
                       isConfirmedByCurrentAccount := true }] }

/-- A projection state holding one pending, unconfirmed transaction record
at index 0 whose `isConfirmedByCurrentAccount` flag is clear. -/
def c1FreshState : State :=
  { address := "0xwallet", balance := "0", owners := ["0xA", "0xB"],
    numConfirmationsRequired := 2, transactionCount := 1,
    transactions := [{ txIndex := some 0, toAddr := "0xD", value := 0, data := "0x00",
                       executed := false, numConfirmations := 0,
                       isConfirmedByCurrentAccount := false }] }

/-- A projection state whose local transaction list is empty even though the
ledger-side transaction count is positive (a missed bootstrap). -/
def c2State : State :=
  { address := "0xwallet", balance := "0", owners := ["0xA"],
    numConfirmationsRequired := 1, transactionCount := 3, transactions := [] }

/-- A projection state holding one transaction record at index 7 only. -/
def c2SingleState : State :=
  { address := "0xwallet", balance := "0", owners := ["0xA"],
    numConfirmationsRequired := 1, transactionCount := 8,
    transactions := [{ txIndex := some 7, toAddr := "0xD", value := 0, data := "0x00",
                       executed := false, numConfirmations := 0,
                       isConfirmedByCurrentAccount := false }] }

/-- A projection state holding one already-executed transaction record at
index 0 with one confirmation. -/
def c3State : State :=
  { address := "0xwallet", balance := "0", owners := ["0xA", "0xB"],
    numConfirmationsRequired := 2, transactionCount := 1,
    transactions := [{ txIndex := some 0, toAddr := "0xD", value := 0, data := "0x00",
                       executed := true, numConfirmations := 1,
                       isConfirmedByCurrentAccount := false }] }

/-- A projection state holding one pending transaction record at index 0
with one confirmation by another owner. -/
def c6State : State :=
  { address := "0xwallet", balance := "0", owners := ["0xA", "0xB"],
    numConfirmationsRequired := 2, transactionCount := 1,
    transactions := [{ txIndex := some 0, toAddr := "0xD", value := 5, data := "0x00",
                       executed := false, numConfirmations := 1,
                       isConfirmedByCurrentAccount := false }] }

/-- A sample ordered event sequence: a deposit, a submission and a
confirmation. -/
def c7Events : List WalletEvent :=
  [.deposit "7", .submitTransaction "0" "0xD" "5" "0x00", .confirmTransaction "0xA" "0"]

/-- A projection state holding one pending transaction record at index 0
with zero confirmations. -/
def c9State : State :=
  { address := "0xwallet", balance := "0", owners := ["0xA", "0xB"],
    numConfirmationsRequired := 2, transactionCount := 1,
    transactions := [{ txIndex := some 0, toAddr := "0xD", value := 0, data := "0x00",
                       executed := false, numConfirmations := 0,
                       isConfirmedByCurrentAccount := false }] }

/-- Updating a matched transaction never changes its `txIndex` field: every
branch of the `UPDATE_TX` map callback copies it unchanged. -/
theorem updateMatchedTx_txIndex (d : UpdateTxData) (tx : Transaction) :
    (updateMatchedTx d tx).txIndex = tx.txIndex := by
  unfold updateMatchedTx
  split <;> split <;> (try split) <;> (try split) <;> rfl

/-- Mapping a function that fixes every element of a list leaves the list
unchanged. -/
theorem map_eq_self_of_fixpoints (l : List Transaction) (f : Transaction → Transaction)
    (h : ∀ tx ∈ l, f tx = tx) : l.map f = l := by
  induction l with
  | nil => rfl
  | cons a l ih => simp_all

/-- C1, counterexample: the claim asserts that when the confirming owner
differs from the viewer identity, a previously-set
`isConfirmedByCurrentAccount` flag is left unchanged.  In `c1State` the
record at index 0 has the flag set; folding a Confirm by owner `0xB` for
viewer `0xA` overwrites the flag to `false`, so the claim is false. -/
theorem confirm_by_other_owner_clears_flag :
    (c1State.transactions.map Transaction.isConfirmedByCurrentAccount = [true]) ∧
    ((applyEvent "0xA" c1State (.confirmTransaction "0xB" "0")).map
        (fun s => s.transactions.map Transaction.isConfirmedByCurrentAccount)
      = some [false]) := by decide

/-- C1, amended: folding a Confirm notification (owner `o`, index `i`) for a
viewer identity `a` into a state whose record at list position `p` carries
the matching index increments that record's confirmation count by exactly
one and assigns `isConfirmedByCurrentAccount` the boolean `o == a` — in
particular, when `o` differs from `a`, a previously-set flag is overwritten
to `false`, not left unchanged. -/
theorem confirm_increments_and_assigns_flag (a o i : String) (s : State) (p : Nat)
    (tx : Transaction)
    (hp : s.transactions[p]? = some tx)
    (hm : numEq tx.txIndex (parseIntJS i) = true) :
    (applyEvent a s (.confirmTransaction o i)).bind
        (fun s2 => s2.transactions[p]?)
      = some { tx with
          numConfirmations := tx.numConfirmations + 1
          isConfirmedByCurrentAccount := o == a } := by
  simp only [applyEvent, reducer, Option.bind, List.getElem?_map, hp, Option.map, hm,
    if_pos, updateMatchedTx]
  rfl

/-- C1, witness: the amended confirm theorem applied at a concrete state
with a fresh record at index 0 and a confirming owner equal to the viewer. -/
theorem confirm_increments_and_assigns_flag_witness :
    (applyEvent "0xA" c1FreshState (.confirmTransaction "0xA" "0")).bind
        (fun s2 => s2.transactions[0]?)
      = some { txIndex := some 0, toAddr := "0xD", value := 0, data := "0x00",
               executed := false, numConfirmations := 1,
               isConfirmedByCurrentAccount := true } :=
  confirm_increments_and_assigns_flag "0xA" "0xA" "0" c1FreshState 0
    { txIndex := some 0, toAddr := "0xD", value := 0, data := "0x00",
      executed := false, numConfirmations := 0, isConfirmedByCurrentAccount := false }
    (by decide) (by decide)

/-- C2, counterexample: the claim asserts that a Confirm notification whose
index matches no local record is surfaced as an error rather than returning
the state unchanged.  In `c2State` the transaction list is empty; folding
a Confirm for index 2 returns the state unchanged and no error. -/
theorem unmatched_index_returns_state_unchanged :
    applyEvent "0xA" c2State (.confirmTransaction "0xA" "2") = some c2State := by decide

/-- C2, amended: for every projection state and every Confirm, Revoke, or
Execute notification whose index matches no locally held transaction
record, the fold silently skips the notification: it returns the state
unchanged (in particular no error is surfaced to the caller). -/
theorem unmatched_index_silently_skipped (a o i : String) (s : State)
    (h : ∀ tx ∈ s.transactions, numEq tx.txIndex (parseIntJS i) = false) :
    applyEvent a s (.confirmTransaction o i) = some s ∧
    applyEvent a s (.revokeConfirmation o i) = some s ∧
    applyEvent a s (.executeTransaction o i) = some s := by
  refine ⟨?_, ?_, ?_⟩ <;>
  · simp only [applyEvent, reducer]
    rw [map_eq_self_of_fixpoints]
    intro tx htx
    simp [h tx htx]

/-- C2, witness: folding Confirm, Revoke and Execute notifications for
index 3 into a state holding only a record at index 7 leaves the state
unchanged. -/
theorem unmatched_index_silently_skipped_witness :
    applyEvent "0xA" c2SingleState (.confirmTransaction "0xA" "3") = some c2SingleState ∧
    applyEvent "0xA" c2SingleState (.revokeConfirmation "0xA" "3") = some c2SingleState ∧
    applyEvent "0xA" c2SingleState (.executeTransaction "0xA" "3") = some c2SingleState :=
  unmatched_index_silently_skipped "0xA" "0xA" "3" c2SingleState (by decide)

/-- C3, counterexample: the claim asserts that a record with
`executed = true` is frozen.  In `c3State` the record at index 0 is
executed with one confirmation; folding a Confirm notification for it
raises its confirmation count to 2, so the record is not frozen. -/
theorem executed_record_still_mutable :
    (c3State.transactions.map Transaction.executed = [true]) ∧
    (c3State.transactions.map Transaction.numConfirmations = [1]) ∧
    ((applyEvent "0xA" c3State (.confirmTransaction "0xA" "0")).map
        (fun s => s.transactions.map Transaction.numConfirmations)
      = some [2]) := by decide

/-- C3, amended: for a record with `executed = true` at list position `p`
carrying the matching index, folding an Execute notification leaves the
record unchanged, and folding a Confirm or Revoke notification keeps
`executed = true` (the flag never transitions back to `false`); however
Confirm and Revoke still mutate the record's confirmation count and
`isConfirmedByCurrentAccount` flag — the record is not frozen. -/
theorem executed_flag_permanent_but_record_mutable (a o i : String) (s : State) (p : Nat)
    (tx : Transaction)
    (hp : s.transactions[p]? = some tx)
    (hex : tx.executed = true)
    (hm : numEq tx.txIndex (parseIntJS i) = true) :
    ((applyEvent a s (.executeTransaction o i)).bind
        (fun s2 => s2.transactions[p]?) = some tx) ∧
    ((applyEvent a s (.confirmTransaction o i)).bind
        (fun s2 => (s2.transactions[p]?).map Transaction.executed) = some true) ∧
    ((applyEvent a s (.revokeConfirmation o i)).bind
        (fun s2 => (s2.transactions[p]?).map Transaction.executed) = some true) := by
  obtain ⟨ti, ta, v, dt, ex, nc, fl⟩ := tx
  simp only [Transaction.executed] at hex
  subst hex
  refine ⟨?_, ?_, ?_⟩ <;>
  · simp only [applyEvent, reducer, Option.bind, List.getElem?_map, hp, Option.map, hm,
      if_pos, updateMatchedTx]
    try rfl
    try simp [apply_ite]

/-- C3, witness: the amended theorem applied to the executed record of
`c3State`: an Execute notification leaves it unchanged, and Confirm/Revoke
keep `executed = true`. -/
theorem executed_flag_permanent_but_record_mutable_witness :
    ((applyEvent "0xA" c3State (.executeTransaction "0xB" "0")).bind
        (fun s2 => s2.transactions[0]?)
      = some { txIndex := some 0, toAddr := "0xD", value := 0, data := "0x00",
               executed := true, numConfirmations := 1,
               isConfirmedByCurrentAccount := false }) ∧
    ((applyEvent "0xA" c3State (.confirmTransaction "0xB" "0")).bind
        (fun s2 => (s2.transactions[0]?).map Transaction.executed) = some true) ∧
    ((applyEvent "0xA" c3State (.revokeConfirmation "0xB" "0")).bind
        (fun s2 => (s2.transactions[0]?).map Transaction.executed) = some true) :=
  executed_flag_permanent_but_record_mutable "0xA" "0xB" "0" c3State 0
    { txIndex := some 0, toAddr := "0xD", value := 0, data := "0x00",
      executed := true, numConfirmations := 1, isConfirmedByCurrentAccount := false }
    (by decide) (by decide) (by decide)

/-- C4: folding a Deposit notification replaces the balance with the total
carried by the notification; the resulting balance is the same from any
two prior states (it is independent of the prior balance, not additive). -/
theorem deposit_replaces_balance (a a2 : String) (s s2 : State) (b : String) :
    applyEvent a s (.deposit b) = some { s with balance := b } ∧
    (applyEvent a s (.deposit b)).map State.balance
      = (applyEvent a2 s2 (.deposit b)).map State.balance :=
  ⟨rfl, rfl⟩

/-- C5: folding a Submit notification whose value field is a well-formed
numeric string prepends exactly one new transaction record — index parsed
from the notification's numeric index field, confirmation count 0,
`executed = false`, `isConfirmedByCurrentAccount = false` — and increments
the local transaction count by one. -/
theorem submit_prepends_record (a i t v d : String) (s : State) (bn : Int)
    (hv : toBN v = some bn) :
    applyEvent a s (.submitTransaction i t v d)
      = some { s with
          transactionCount := s.transactionCount + 1
          transactions :=
            { txIndex := parseIntJS i, toAddr := t, value := bn, data := d,
              executed := false, numConfirmations := 0,
              isConfirmedByCurrentAccount := false } :: s.transactions } := by
  simp [applyEvent, reducer, hv]

/-- C5, witness: submitting transaction 0 with value 5 to the initial state
prepends the expected fresh record and raises the transaction count. -/
theorem submit_prepends_record_witness :
    applyEvent "0xA" INITIAL_STATE (.submitTransaction "0" "0xD" "5" "0x00")
      = some { INITIAL_STATE with
          transactionCount := INITIAL_STATE.transactionCount + 1
          transactions :=
            { txIndex := parseIntJS "0", toAddr := "0xD", value := 5, data := "0x00",
              executed := false, numConfirmations := 0,
              isConfirmedByCurrentAccount := false } :: INITIAL_STATE.transactions } :=
  submit_prepends_record "0xA" "0" "0xD" "5" "0x00" INITIAL_STATE 5 (by decide)

/-- C6: for a pending transaction record at list position `p` carrying the
matching index, folding a Confirm and then a Revoke notification by the
same owner `o`, viewed by identity `o`, returns the record's confirmation
count to its pre-confirm value and leaves
`isConfirmedByCurrentAccount = false`. -/
theorem confirm_then_revoke_roundtrip (o i : String) (s : State) (p : Nat)
    (tx : Transaction)
    (hp : s.transactions[p]? = some tx)
    (hpend : tx.executed = false)
    (hm : numEq tx.txIndex (parseIntJS i) = true) :
    (replay o s [.confirmTransaction o i, .revokeConfirmation o i]).bind
        (fun s2 => (s2.transactions[p]?).map
          (fun t => (t.numConfirmations, t.isConfirmedByCurrentAccount)))
      = some (tx.numConfirmations, false) := by
  have hm2 : numEq (updateMatchedTx
      { account := o, txIndex := i, owner := o, executed := none, confirmed := some true }
      tx).txIndex (parseIntJS i) = true := by
    rw [updateMatchedTx_txIndex]; exact hm
  simp only [replay, applyEvent, reducer, Option.bind, List.map_map, List.getElem?_map,
    hp, Option.map, Function.comp, hm, hm2, if_pos]
  simp [updateMatchedTx]

/-- C6, witness: confirming then revoking transaction 0 by owner `0xA`
viewed as `0xA` on `c6State` returns the count to 1 and leaves the flag
clear. -/
theorem confirm_then_revoke_roundtrip_witness :
    (replay "0xA" c6State
        [.confirmTransaction "0xA" "0", .revokeConfirmation "0xA" "0"]).bind
        (fun s2 => (s2.transactions[0]?).map
          (fun t => (t.numConfirmations, t.isConfirmedByCurrentAccount)))
      = some (1, false) :=
  confirm_then_revoke_roundtrip "0xA" "0" c6State 0
    { txIndex := some 0, toAddr := "0xD", value := 5, data := "0x00",
      executed := false, numConfirmations := 1, isConfirmedByCurrentAccount := false }
    (by decide) (by decide) (by decide)

/-- C7: the projection fold is deterministic — any two replays of the same
ordered event sequence from the same snapshot state produce equal results
(the fold is a pure function of the snapshot and the sequence). -/
theorem replay_deterministic (a : String) (s : State) (evs : List WalletEvent)
    (r1 r2 : Option State)
    (h1 : r1 = replay a s evs) (h2 : r2 = replay a s evs) :
    r1 = r2 :=
  h1.trans h2.symm

/-- C7, witness: two replays of the sample event sequence from the initial
state agree. -/
theorem replay_deterministic_witness :
    replay "0xA" INITIAL_STATE c7Events = replay "0xA" INITIAL_STATE c7Events :=
  replay_deterministic "0xA" INITIAL_STATE c7Events
    (replay "0xA" INITIAL_STATE c7Events) (replay "0xA" INITIAL_STATE c7Events) rfl rfl

/-- C9: the revoke fold does not clamp at zero — folding a Revoke
notification addressed to a non-executed record with confirmation count 0
yields a record with confirmation count -1 (the decrement is
unconditional). -/
theorem revoke_no_zero_clamp (a o i : String) (s : State) (p : Nat)
    (tx : Transaction)
    (hp : s.transactions[p]? = some tx)
    (hpend : tx.executed = false)
    (hzero : tx.numConfirmations = 0)
    (hm : numEq tx.txIndex (parseIntJS i) = true) :
    (applyEvent a s (.revokeConfirmation o i)).bind
        (fun s2 => (s2.transactions[p]?).map Transaction.numConfirmations)
      = some (-1) := by
  simp only [applyEvent, reducer, Option.bind, List.getElem?_map, hp, Option.map, hm, if_pos]
  simp [updateMatchedTx, apply_ite, hzero]

/-- C9, witness: revoking transaction 0 of `c9State`, whose record has zero
confirmations, drives its confirmation count to -1. -/
theorem revoke_no_zero_clamp_witness :
    (applyEvent "0xA" c9State (.revokeConfirmation "0xB" "0")).bind
        (fun s2 => (s2.transactions[0]?).map Transaction.numConfirmations)
      = some (-1) :=
  revoke_no_zero_clamp "0xA" "0xB" "0" c9State 0
    { txIndex := some 0, toAddr := "0xD", value := 0, data := "0x00",
      executed := false, numConfirmations := 0, isConfirmedByCurrentAccount := false }
    (by decide) (by decide) (by decide) (by decide)

/-- C10: `unlockAccount` fails with the error `"Web3 not found"` exactly
when the environment provides no injected Ethereum provider; when a
provider exists it returns the provider's first account, or the empty
string when the provider's account list is empty. -/
theorem unlockAccount_behavior (eth : Option EthereumProvider) :
    (unlockAccount eth = .error "Web3 not found" ↔ eth = none) ∧
    (∀ p, eth = some p →
      unlockAccount eth = .ok (match p.accounts with
        | [] => ""
        | acct :: _ => acct)) := by
  constructor
  · cases eth <;> simp [unlockAccount]
  · rintro p rfl
    cases h : p.accounts <;> simp [unlockAccount, h]

/-- C10, witness: with a provider holding two accounts, `unlockAccount`
returns the first one. -/
theorem unlockAccount_behavior_witness :
    unlockAccount (some { accounts := ["0xabc", "0xdef"] }) = .ok "0xabc" :=
  (unlockAccount_behavior (some { accounts := ["0xabc", "0xdef"] })).2
    { accounts := ["0xabc", "0xdef"] } rfl

end MultiSigWalletModel
